import Mathlib

/-!
Shallow embedding of the evaluation orchestrator
`TalkingGaussian/scripts/eval_all.py` and of the LLM glue
`backend/llm_service.py`, with theorems settling the specification claims.

Modelling conventions:

* Subprocesses are external black boxes: a `World` oracle maps each
  invocation descriptor (`SubCmd`) to the pair `(returncode, stdout)`
  produced by `subprocess.call` / `subprocess.run`.  `stdout` is already
  the string `proc.stdout or ""`.
* Machine effects that the claims talk about (subprocess launches,
  `shutil.rmtree`, `os.makedirs`, the JSON write) are recorded in order as
  a list of events `Ev`.
* `re.search` for the seven metric patterns of the script is implemented
  directly: every pattern has the shape
  `LIT <middle> ([0-9.+-eE]+)` where `<middle>` is `\s*=\s*`,
  `.*?=\s*`, or `\s*\(pyiqa\)\s*=\s*`, and the capture group is a final
  greedy plus over a character class.  The backtracking order of CPython's
  `re` collapses to the deterministic scans implemented below (the
  whitespace class, the `=` literal and the number class are pairwise
  disjoint, and the lazy `.*?` tries candidate `=` positions left to
  right, never crossing a newline).
* Note `[0-9.+-eE]` contains the *range* `+-e` (codepoints 0x2B to
  0x65); together with `0-9`, `.` and `E` (all inside that range) the
  class is exactly the codepoint interval `['+', 'e']`, so it also
  matches `,`, `=`, `_`, capital letters, `a`-`e`, and more.
* Python `float(...)` applied to a captured token is modelled by
  `pyFloatValid` (the CPython grammar restricted to the character class of
  the capture group, which can contain no whitespace, underscore, `inf`
  or `nan`); an invalid token raises `ValueError`, modelled as
  `Halt.valueError`.
* `SystemExit(msg)` exits with process code 1; `SystemExit(ret)` with
  code `ret`.  Python truthiness of an optional string argument
  (`if not args.pred_video`) is falseness of `Option String` being
  `none` or `some ""`.
-/

/-! ## Python string and regex primitives -/

/-- Whitespace codepoints matched by `\s` in a `str` pattern (the exact
set CPython's `re` matches). -/
def isPySpace (c : Char) : Bool :=
  ([0x9, 0xA, 0xB, 0xC, 0xD, 0x1C, 0x1D, 0x1E, 0x1F, 0x20, 0x85, 0xA0,
    0x1680, 0x2000, 0x2001, 0x2002, 0x2003, 0x2004, 0x2005, 0x2006,
    0x2007, 0x2008, 0x2009, 0x200A, 0x2028, 0x2029, 0x202F, 0x205F,
    0x3000] : List UInt32).contains c.val

/-- Membership in the character class `[0-9.+-eE]`.  Because `+-e` is a
range, the class is exactly the codepoint interval from `+` (0x2B) to
`e` (0x65). -/
def isFloatTokChar (c : Char) : Bool :=
  '+' ≤ c && c ≤ 'e'

/-- Maximal run of characters of the class `[0-9.+-eE]` (the greedy final
capture group) together with the rest of the input. -/
def takeClass : List Char → List Char × List Char
  | [] => ([], [])
  | c :: cs =>
      if isFloatTokChar c then
        let (t, r) := takeClass cs
        (c :: t, r)
      else ([], c :: cs)

/-- Match a literal string at the head of the input, returning the rest. -/
def dropLit : List Char → List Char → Option (List Char)
  | [], cs => some cs
  | _ :: _, [] => none
  | l :: ls, c :: cs => if c = l then dropLit ls cs else none

/-- Match `\s*([0-9.+-eE]+)` at the head of the input and return the
captured token (which must be nonempty). -/
def eqTail (rest : List Char) : Option (List Char) :=
  let (tok, _) := takeClass (rest.dropWhile isPySpace)
  if tok = [] then none else some tok

/-- Match `\s*=\s*([0-9.+-eE]+)` at the head of the input. -/
def matchEqNum (cs : List Char) : Option (List Char) :=
  match cs.dropWhile isPySpace with
  | '=' :: rest => eqTail rest
  | _ => none

/-- Match `.*?=\s*([0-9.+-eE]+)` at the head of the input: the lazy dot
scans left to right for a `=` whose tail matches, and cannot cross a
newline (`.` does not match `\n`). -/
def matchLazyEqNum : List Char → Option (List Char)
  | [] => none
  | c :: rest =>
      if c = '=' then
        match eqTail rest with
        | some tok => some tok
        | none => matchLazyEqNum rest
      else if c = '\n' then none
      else matchLazyEqNum rest

/-- Match `\s*\(pyiqa\)\s*=\s*([0-9.+-eE]+)` at the head of the input
(the part of the NIQE pattern after the literal `NIQE`). -/
def matchNiqeTail (cs : List Char) : Option (List Char) :=
  match dropLit "(pyiqa)".toList (cs.dropWhile isPySpace) with
  | some r => matchEqNum r
  | none => none

/-- `re.search` for a pattern `LIT tail`: try every start position left to
right; at each position require the literal and then the tail matcher. -/
def searchFrom (pat : List Char) (t : List Char → Option (List Char)) :
    List Char → Option (List Char)
  | [] =>
      match dropLit pat [] with
      | some rest => t rest
      | none => none
  | c :: cs =>
      match dropLit pat (c :: cs) with
      | some rest =>
          match t rest with
          | some tok => some tok
          | none => searchFrom pat t cs
      | none => searchFrom pat t cs

/-- Contiguous-substring test (used to state claims such as "stdout with
no `FID` substring"). -/
def hasSub (pat : List Char) : List Char → Bool
  | [] => (dropLit pat []).isSome
  | c :: cs => (dropLit pat (c :: cs)).isSome || hasSub pat cs

/-! ## Python `float()` on captured tokens -/

/-- Drop one optional leading sign. -/
def dropSign : List Char → List Char
  | '+' :: cs => cs
  | '-' :: cs => cs
  | cs => cs

/-- Continuation of a `digitpart` after its first digit: consume further
digits, where a single `_` may sit between two digits (PEP 515).
Returns the count of digits consumed and the rest. -/
def digitRunAux : List Char → Nat × List Char
  | [] => (0, [])
  | '_' :: c :: cs =>
      if c.isDigit then
        let (n, r) := digitRunAux cs
        (n + 1, r)
      else (0, '_' :: c :: cs)
  | c :: cs =>
      if c.isDigit then
        let (n, r) := digitRunAux cs
        (n + 1, r)
      else (0, c :: cs)

/-- A maximal `digitpart`: `digit (["_"] digit)*`.  Returns the count of
digits consumed (0 when the input does not start with a digit) and the
rest. -/
def digitRun : List Char → Nat × List Char
  | [] => (0, [])
  | c :: cs =>
      if c.isDigit then
        let (n, r) := digitRunAux cs
        (n + 1, r)
      else (0, c :: cs)

/-- After `e`/`E`: an optional sign and then a nonempty `digitpart`,
consuming the whole rest. -/
def expDigitsOk (cs : List Char) : Bool :=
  let (n, r) := digitRun (dropSign cs)
  decide (0 < n) && decide (r = [])

/-- An optional exponent part closing the token. -/
def expOk : List Char → Bool
  | [] => true
  | 'e' :: rest => expDigitsOk rest
  | 'E' :: rest => expDigitsOk rest
  | _ => false

/-- Acceptance of `float(token)` for tokens over the capture-group
character class:
`[sign] (digitpart [. digitpart?] | . digitpart) [exponent]` with PEP 515
underscores.  A comma, a bare sign, a bare dot, a stray letter or a
malformed exponent raise `ValueError` in Python and are rejected here
(`inf`/`nan` need letters outside the class and cannot be captured). -/
def pyFloatValid (cs : List Char) : Bool :=
  let m := dropSign cs
  let (n, r) := digitRun m
  match r with
  | '.' :: r2 =>
      let (k, r3) := digitRun r2
      (decide (0 < n) || decide (0 < k)) && expOk r3
  | _ => decide (0 < n) && expOk r

/-! ## Orchestrator data model -/

/-- Abnormal termination of the orchestrator process: a `SystemExit`
carrying the process exit code, or an uncaught `ValueError` from
`float(...)` (which makes the interpreter exit with code 1). -/
inductive Halt where
  | sysExit (code : Int)
  | valueError
deriving DecidableEq

/-- Subprocess invocations issued by `eval_all.py`, with the data that
varies per run. -/
inductive SubCmd where
  | extract (video out_dir : String) (fps : Option String)
  | frameMetrics (pred gt : String) (lpips : Bool) (lpips_net : String)
  | niqeCmd (frames_dir : String)
  | fidCmd (pred_frames gt_frames backend : String)
  | setupLse
  | lseCmd (gen_videos_dir preset syncnet_dir tmp_dir : String)
deriving DecidableEq

/-- Value of the `results["frame"]` dict. -/
structure FrameRes where
  lpips : Bool
  lpips_net : String
  PSNR : Option String
  SSIM : Option String
  LPIPS : Option String
deriving DecidableEq

/-- Value of the `results["niqe"]` dict. -/
structure NiqeRes where
  frames_dir : String
  ok : Bool
  NIQE : Option String
deriving DecidableEq

/-- Value of the `results["fid"]` dict. -/
structure FidRes where
  backend : String
  gen_frames : String
  gt_frames : String
  FID : Option String
deriving DecidableEq

/-- Value of the `results["lse"]` dict (the keys `LSE-C` and `LSE-D` are
written `lseC`, `lseD`). -/
structure LseRes where
  preset : String
  gen_videos_dir : String
  syncnet_dir : String
  lseC : Option String
  lseD : Option String
deriving DecidableEq

/-- The summary record `results`, one optional entry per metric family,
in insertion order `frame`, `niqe`, `fid`, `lse`. -/
structure Results where
  frame : Option FrameRes := none
  niqe : Option NiqeRes := none
  fid : Option FidRes := none
  lse : Option LseRes := none
deriving DecidableEq

/-- Parsed command line of `eval_all.py`.  `fps` holds `str(args.fps)`
when given.  `work_dir` and `syncnet_dir` have no Lean default because the
script derives their CLI defaults from its own installation path. -/
structure Args where
  pred_video : Option String := none
  gt_video : Option String := none
  gen_videos_dir : Option String := none
  frame : Bool := false
  niqe : Bool := false
  fid : Bool := false
  lse : Bool := false
  all : Bool := false
  lpips : Bool := false
  lpips_net : String := "alex"
  fps : Option String := none
  fid_backend : String := "clean-fid"
  lse_preset : String := "wav2lip-real"
  syncnet_dir : String
  tmp_dir : String := "tmp_dir/"
  setup_lse : Bool := false
  work_dir : String
  json_out : Option String := none

/-- Which metric families will run (the variables `run_frame`,
`run_niqe`, `run_fid`, `run_lse`). -/
structure RunSel where
  run_frame : Bool
  run_niqe : Bool
  run_fid : Bool
  run_lse : Bool
deriving DecidableEq

/-- The input-resolution policy (`eval_all.py` lines 146-157): explicit
selector flags, overridden by inference from the present inputs when
`--all` is set or no selector flag is set. -/
def resolveRun (a : Args) : RunSel :=
  if a.all || !(a.frame || a.niqe || a.fid || a.lse) then
    { run_frame := a.pred_video.isSome && a.gt_video.isSome
      run_niqe := a.pred_video.isSome
      run_fid := a.pred_video.isSome && a.gt_video.isSome
      run_lse := a.gen_videos_dir.isSome }
  else
    { run_frame := a.frame, run_niqe := a.niqe, run_fid := a.fid, run_lse := a.lse }

/-- Observable events of a run, in program order. -/
inductive Ev where
  | run (cmd : SubCmd)
  | rmtree (dir : String)
  | mkdirs (dir : String)
  | writeJson (path : String) (res : Results)
deriving DecidableEq

/-- The environment of a run: subprocess behaviour, existence of paths at
the moment they are tested, the contents of files read back
(`all_scores.txt`), and `os.path.abspath` (which depends on the working
directory of the process). -/
structure World where
  proc : SubCmd → Int × String
  pathExists : String → Bool
  readFile : String → Option String
  absPath : String → String

/-- `os.path.join` for a single component (POSIX). -/
def joinPath (a b : String) : String :=
  if b.toList.head? = some '/' then b
  else if a = "" then b
  else if a.toList.getLast? = some '/' then a ++ b
  else a ++ "/" ++ b

/-- `os.path.dirname` (POSIX). -/
def dirname (s : String) : String :=
  let cs := s.toList
  let headRev := cs.reverse.dropWhile (fun c => !(c = '/'))
  let head := headRev.reverse
  if head.all (fun c => c = '/') then String.mk head
  else String.mk ((head.reverse.dropWhile (fun c => c = '/')).reverse)

/-- Directory passed to `os.makedirs` before the JSON write:
`os.path.dirname(os.path.abspath(json_out)) or "."`. -/
def jsonOutDir (w : World) (p : String) : String :=
  let d := dirname (w.absPath p)
  if d = "" then "." else d

/-- Python truthiness test `not opt` for an optional string argument. -/
def falsyOpt : Option String → Bool
  | none => true
  | some s => s = ""

/-! ## Metric extraction -/

/-- The seven metric patterns of `eval_all.py`. -/
inductive MetricPat where
  | psnr | ssim | lpips | niqe | fid | lseC | lseD
deriving DecidableEq

/-- `re.search` with the pattern of a given metric, returning the capture
of the number group. -/
def patSearch : MetricPat → List Char → Option (List Char)
  | .psnr, cs => searchFrom "PSNR".toList matchEqNum cs
  | .ssim, cs => searchFrom "SSIM".toList matchEqNum cs
  | .lpips, cs => searchFrom "LPIPS".toList matchLazyEqNum cs
  | .niqe, cs => searchFrom "NIQE".toList matchNiqeTail cs
  | .fid, cs => searchFrom "FID".toList matchLazyEqNum cs
  | .lseC, cs => searchFrom "LSE-C".toList matchLazyEqNum cs
  | .lseD, cs => searchFrom "LSE-D".toList matchLazyEqNum cs

/-- `float(m.group(1))` if the pattern matched: a valid token is stored,
an invalid one raises `ValueError`; no match means the value stays
`None`. -/
def runFloat (m : Option (List Char)) : Except Halt (Option String) :=
  match m with
  | none => .ok none
  | some tok =>
      if pyFloatValid tok then .ok (some (String.mk tok)) else .error .valueError

/-- One metric extraction step `m = re.search(...); if m: v = float(...)`
applied to a subprocess stdout. -/
def extractMetricOf (fam : MetricPat) (out : String) : Except Halt (Option String) :=
  runFloat (patSearch fam out.toList)

/-- The `if out:` guard wrapped around the stdout parsing blocks. -/
def parseIfOut (fam : MetricPat) (out : String) : Except Halt (Option String) :=
  if out = "" then .ok none else extractMetricOf fam out

/-! ## Stage semantics of `main` -/

/-- Guard of an `if run_x:` section: when the flag is set, run the
section and wrap its entry in `some`; otherwise contribute nothing. -/
def optWrap {A : Type} (b : Bool) (m : Except (List Ev × Halt) (List Ev × A)) :
    Except (List Ev × Halt) (List Ev × Option A) :=
  if b then
    match m with
    | .error e => .error e
    | .ok (tr, r) => .ok (tr, some r)
  else .ok ([], none)

/-- Frame-metrics section (`eval_all.py` lines 166-200).  A missing or
empty pred/gt video is the fatal `SystemExit("--frame requires ...")`;
a non-zero subprocess exit propagates as `SystemExit(ret)`
(`allow_fail=False`); the three regex extractions follow. -/
def frameStage (a : Args) (w : World) : Except (List Ev × Halt) (List Ev × FrameRes) :=
  match a.pred_video, a.gt_video with
  | some p, some g =>
      if p = "" ∨ g = "" then .error ([], .sysExit 1)
      else
        let inv := SubCmd.frameMetrics p g a.lpips a.lpips_net
        let ret := (w.proc inv).1
        let out := (w.proc inv).2
        let ev := [Ev.run inv]
        if ret = 0 then
          match parseIfOut .psnr out with
          | .error h => .error (ev, h)
          | .ok pv =>
            match parseIfOut .ssim out with
            | .error h => .error (ev, h)
            | .ok sv =>
              match (if a.lpips then parseIfOut .lpips out else .ok none) with
              | .error h => .error (ev, h)
              | .ok lv => .ok (ev, ⟨a.lpips, a.lpips_net, pv, sv, lv⟩)
        else .error (ev, .sysExit ret)
  | _, _ => .error ([], .sysExit 1)

/-- NIQE section (`eval_all.py` lines 212-230): the subprocess may fail
(`allow_fail=True`); the value is parsed from stdout regardless of the
exit code; `ok` records `ret == 0`. -/
def niqeStage (pfd : String) (w : World) : Except (List Ev × Halt) (List Ev × NiqeRes) :=
  let inv := SubCmd.niqeCmd pfd
  let ret := (w.proc inv).1
  let out := (w.proc inv).2
  match parseIfOut .niqe out with
  | .error h => .error ([Ev.run inv], h)
  | .ok v => .ok ([Ev.run inv], ⟨pfd, decide (ret = 0), v⟩)

/-- FID section (`eval_all.py` lines 233-261): fatal check of the GT
video, deletion and re-extraction of the GT frames, then the FID
subprocess (`allow_fail=False`) and the FID extraction. -/
def fidStage (a : Args) (pfd : String) (w : World) :
    Except (List Ev × Halt) (List Ev × FidRes) :=
  match a.gt_video with
  | none => .error ([], .sysExit 1)
  | some g =>
      if g = "" then .error ([], .sysExit 1)
      else
        let gfd := joinPath a.work_dir "gt_frames"
        let ev1 : List Ev := if w.pathExists gfd then [Ev.rmtree gfd] else []
        let invE := SubCmd.extract g gfd a.fps
        let ev2 := ev1 ++ [Ev.run invE]
        if (w.proc invE).1 = 0 then
          let invF := SubCmd.fidCmd pfd gfd a.fid_backend
          let out := (w.proc invF).2
          let ev3 := ev2 ++ [Ev.run invF]
          if (w.proc invF).1 = 0 then
            match parseIfOut .fid out with
            | .error h => .error (ev3, h)
            | .ok v => .ok (ev3, ⟨a.fid_backend, pfd, gfd, v⟩)
          else .error (ev3, .sysExit (w.proc invF).1)
        else .error (ev2, .sysExit (w.proc invE).1)

/-- Shared pred-frames preparation plus the NIQE and FID sections
(`eval_all.py` lines 202-261): fatal check of the pred video, deletion
and re-extraction of the pred frames, then each selected section. -/
def niqeFidStage (a : Args) (sel : RunSel) (w : World) :
    Except (List Ev × Halt) (List Ev × (Option NiqeRes × Option FidRes)) :=
  match a.pred_video with
  | none => .error ([], .sysExit 1)
  | some p =>
      if p = "" then .error ([], .sysExit 1)
      else
        let pfd := joinPath a.work_dir "pred_frames"
        let ev1 : List Ev := if w.pathExists pfd then [Ev.rmtree pfd] else []
        let invE := SubCmd.extract p pfd a.fps
        let ev2 := ev1 ++ [Ev.run invE]
        if (w.proc invE).1 = 0 then
          match optWrap sel.run_niqe (niqeStage pfd w) with
          | .error (tr, h) => .error (ev2 ++ tr, h)
          | .ok (trN, nq) =>
              match optWrap sel.run_fid (fidStage a pfd w) with
              | .error (tr, h) => .error (ev2 ++ trN ++ tr, h)
              | .ok (trF, fd) => .ok (ev2 ++ trN ++ trF, (nq, fd))
        else .error (ev2, .sysExit (w.proc invE).1)

/-- LSE section (`eval_all.py` lines 264-315): fatal check of the
generated-videos directory, optional setup script (`allow_fail=False`),
the LSE subprocess (`allow_fail=True`, its exit code is then ignored),
stdout extraction of `LSE-C`/`LSE-D`, and the `all_scores.txt` fallback
for values still missing. -/
def lseStage (a : Args) (w : World) : Except (List Ev × Halt) (List Ev × LseRes) :=
  match a.gen_videos_dir with
  | none => .error ([], .sysExit 1)
  | some gdir =>
      if gdir = "" then .error ([], .sysExit 1)
      else
        let ev0 : List Ev := if a.setup_lse then [Ev.run SubCmd.setupLse] else []
        if a.setup_lse ∧ (w.proc SubCmd.setupLse).1 ≠ 0 then
          .error (ev0, .sysExit (w.proc SubCmd.setupLse).1)
        else
          let inv := SubCmd.lseCmd gdir a.lse_preset a.syncnet_dir a.tmp_dir
          let out := (w.proc inv).2
          let ev := ev0 ++ [Ev.run inv]
          match parseIfOut .lseC out with
          | .error h => .error (ev, h)
          | .ok c0 =>
            match parseIfOut .lseD out with
            | .error h => .error (ev, h)
            | .ok d0 =>
              let spath := joinPath a.syncnet_dir "all_scores.txt"
              match (if c0 = none ∨ d0 = none then w.readFile spath else none) with
              | some text =>
                  match (if c0 = none then extractMetricOf .lseC text else .ok c0) with
                  | .error h => .error (ev, h)
                  | .ok c1 =>
                    match (if d0 = none then extractMetricOf .lseD text else .ok d0) with
                    | .error h => .error (ev, h)
                    | .ok d1 => .ok (ev, ⟨a.lse_preset, gdir, a.syncnet_dir, c1, d1⟩)
              | none => .ok (ev, ⟨a.lse_preset, gdir, a.syncnet_dir, c0, d0⟩)

/-- Frame section guarded by `run_frame`. -/
def framePart (a : Args) (sel : RunSel) (w : World) :
    Except (List Ev × Halt) (List Ev × Option FrameRes) :=
  optWrap sel.run_frame (frameStage a w)

/-- NIQE/FID sections guarded by `run_niqe or run_fid`. -/
def niqeFidPart (a : Args) (sel : RunSel) (w : World) :
    Except (List Ev × Halt) (List Ev × (Option NiqeRes × Option FidRes)) :=
  if sel.run_niqe || sel.run_fid then niqeFidStage a sel w
  else .ok ([], (none, none))

/-- LSE section guarded by `run_lse`. -/
def lsePart (a : Args) (sel : RunSel) (w : World) :
    Except (List Ev × Halt) (List Ev × Option LseRes) :=
  optWrap sel.run_lse (lseStage a w)

/-- Final JSON write (`eval_all.py` lines 317-321): only when `json_out`
is truthy; parent directory created first. -/
def jsonStage (a : Args) (w : World) (res : Results) : List Ev :=
  match a.json_out with
  | none => []
  | some p =>
      if p = "" then []
      else [Ev.mkdirs (jsonOutDir w p), Ev.writeJson p res]

/-- The whole of `main()` after argument parsing: resolution of what to
run, `os.makedirs(work_dir)`, the four sections in order, then the JSON
write.  The outcome is the produced summary record or the abnormal
termination. -/
def mainRun (a : Args) (w : World) : List Ev × Except Halt Results :=
  let sel := resolveRun a
  let ev0 : List Ev := [Ev.mkdirs a.work_dir]
  match framePart a sel w with
  | .error (tr, h) => (ev0 ++ tr, .error h)
  | .ok (tr1, fr) =>
      match niqeFidPart a sel w with
      | .error (tr, h) => (ev0 ++ tr1 ++ tr, .error h)
      | .ok (tr2, (nq, fd)) =>
          match lsePart a sel w with
          | .error (tr, h) => (ev0 ++ tr1 ++ tr2 ++ tr, .error h)
          | .ok (tr3, ls) =>
              let res : Results := ⟨fr, nq, fd, ls⟩
              (ev0 ++ tr1 ++ tr2 ++ tr3 ++ jsonStage a w res, .ok res)

/-- Exit code of the orchestrator process for a given outcome. -/
def runExitCode : Except Halt Results → Int
  | .ok _ => 0
  | .error (.sysExit c) => c
  | .error .valueError => 1

/-! ## Filesystem semantics of the frame-extraction call sites

The call sites (`eval_all.py` lines 207-210 and 236-239) do
`if os.path.exists(d): shutil.rmtree(d)` and then run
`evaluation/extract_frames.py`, an external script that is only assumed
to create the directory and add its frames to it.  `DirState` maps a
directory path to its contents (`none` = does not exist). -/

def DirState := String → Option (List String)

/-- `shutil.rmtree dir`. -/
def rmtreeFS (dir : String) (fs : DirState) : DirState :=
  fun d => if d = dir then none else fs d

/-- Effect of the external frame-extraction subprocess: it deposits its
frames into the output directory, keeping whatever is already there
(extraction is not assumed to clean up). -/
def extractToFS (dir : String) (frames : List String) (fs : DirState) : DirState :=
  fun d => if d = dir then some (((fs d).getD []) ++ frames) else fs d

/-- One frame-extraction invocation as performed by the orchestrator:
delete the output directory if it exists, then extract. -/
def extractFramesRun (dir : String) (frames : List String) (fs : DirState) : DirState :=
  extractToFS dir frames (if (fs dir).isSome then rmtreeFS dir fs else fs)

/-! ## JSON model of the summary write

`json.dump(results, f, indent=2, ensure_ascii=False)` serializes the
`results` dict.  `JsonVal` is the abstract syntax of the emitted JSON
document (what `json.dump` emits is always valid JSON); numbers keep account
of the parsed literal. -/

inductive JsonVal where
  | null
  | bool (b : Bool)
  | num (lit : String)
  | str (s : String)
  | obj (fields : List (String × JsonVal))

/-- A float-or-`None` metric value as JSON. -/
def optNumJson : Option String → JsonVal
  | none => .null
  | some s => .num s

/-- JSON value of `results["frame"]`. -/
def frameToJson (f : FrameRes) : JsonVal :=
  .obj [("lpips", .bool f.lpips), ("lpips_net", .str f.lpips_net),
        ("PSNR", optNumJson f.PSNR), ("SSIM", optNumJson f.SSIM),
        ("LPIPS", optNumJson f.LPIPS)]

/-- JSON value of `results["niqe"]`. -/
def niqeToJson (r : NiqeRes) : JsonVal :=
  .obj [("frames_dir", .str r.frames_dir), ("ok", .bool r.ok),
        ("NIQE", optNumJson r.NIQE)]

/-- JSON value of `results["fid"]`. -/
def fidToJson (r : FidRes) : JsonVal :=
  .obj [("backend", .str r.backend), ("gen_frames", .str r.gen_frames),
        ("gt_frames", .str r.gt_frames), ("FID", optNumJson r.FID)]

/-- JSON value of `results["lse"]`. -/
def lseToJson (r : LseRes) : JsonVal :=
  .obj [("preset", .str r.preset), ("gen_videos_dir", .str r.gen_videos_dir),
        ("syncnet_dir", .str r.syncnet_dir), ("LSE-C", optNumJson r.lseC),
        ("LSE-D", optNumJson r.lseD)]

/-- The document `json.dump` writes: one member per family actually in
the dict, in insertion order `frame`, `niqe`, `fid`, `lse`. -/
def resultsToJson (r : Results) : JsonVal :=
  .obj ((match r.frame with | some f => [("frame", frameToJson f)] | none => []) ++
        (match r.niqe with | some q => [("niqe", niqeToJson q)] | none => []) ++
        (match r.fid with | some q => [("fid", fidToJson q)] | none => []) ++
        (match r.lse with | some q => [("lse", lseToJson q)] | none => []))

/-- Top-level keys of a JSON document. -/
def jsonTopKeys : JsonVal → List String
  | .obj fs => fs.map (fun f => f.1)
  | _ => []

/-- Names of the metric families a resolved run attempts, in summary
insertion order. -/
def familiesOf (sel : RunSel) : List String :=
  (if sel.run_frame then ["frame"] else []) ++
  (if sel.run_niqe then ["niqe"] else []) ++
  (if sel.run_fid then ["fid"] else []) ++
  (if sel.run_lse then ["lse"] else [])

/-! ## LLM service (`backend/llm_service.py`)

The OpenAI-SDK client call is an oracle mapping the chosen configuration
and the user text to either the reply string
(`response.choices[0].message.content`) or a raised exception
(`Except.error` carries its message; the SDK raises `Exception`-derived
errors, which is what `except Exception` catches). -/

structure LLMConfig where
  api_key : String
  base_url : String
  model : String
deriving DecidableEq

/-- The entry `API_CONFIG["Zhipu AI"]`. -/
def zhipuConfig (env : String → Option String) : LLMConfig :=
  ⟨(env "ZHIPU_API_KEY").getD "31af4e1567ad48f49b6d7b914b4145fb.MDVLvMiePGYLRJ7M",
   "https://open.bigmodel.cn/api/paas/v4/", "glm-4"⟩

/-- The module-level `API_CONFIG` dict, keyed by provider name, with the
environment-variable overrides and hard-coded fallback keys of the
source. -/
def API_CONFIG (env : String → Option String) : List (String × LLMConfig) :=
  [("OpenAI API",
    ⟨(env "OPENAI_API_KEY").getD "sk-xxxxxxxx", "https://api.openai.com/v1",
     "gpt-3.5-turbo"⟩),
   ("Zhipu AI", zhipuConfig env),
   ("DeepSeek",
    ⟨(env "DEEPSEEK_API_KEY").getD "sk-xxxxxxxx", "https://api.deepseek.com",
     "deepseek-chat"⟩)]

/-- `API_CONFIG.get(api_choice)` (no entry of the dict is falsy, so the
`if not config` fallback fires exactly when the key is absent). -/
def lookupConfig (env : String → Option String) (api_choice : String) :
    Option LLMConfig :=
  (API_CONFIG env).lookup api_choice

/-- The fixed reply returned when the client call raises. -/
def llmFallbackReply : String := "抱歉，我现在连接大脑有点问题，请稍后再试。"

/-- `query_llm(text, api_choice)`: resolve the configuration (falling
back to Zhipu AI when the name is unknown), call the client, and catch
any raised exception, returning the fixed fallback reply.  The function
is total: no exception escapes. -/
def query_llm (env : String → Option String)
    (call : LLMConfig → String → Except String String)
    (text : String) (api_choice : String) : String :=
  let config :=
    match lookupConfig env api_choice with
    | some c => c
    | none => zhipuConfig env
  match call config text with
  | .ok reply => reply
  | .error _ => llmFallbackReply

/-! ## Helper lemmas -/

/-- A pattern whose literal head does not occur as a substring cannot be
found by `re.search`. -/
theorem searchFrom_eq_none_of_hasSub_false (pat : List Char)
    (t : List Char → Option (List Char)) (cs : List Char)
    (h : hasSub pat cs = false) : searchFrom pat t cs = none := by
  induction cs with
  | nil =>
      unfold hasSub at h
      unfold searchFrom
      cases hd : dropLit pat [] with
      | none => rfl
      | some r => rw [hd] at h; simp at h
  | cons c cs ih =>
      unfold hasSub at h
      rw [Bool.or_eq_false_iff] at h
      obtain ⟨h1, h2⟩ := h
      unfold searchFrom
      cases hd : dropLit pat (c :: cs) with
      | none => exact ih h2
      | some rest => rw [hd] at h1; simp at h1

/-- A failing `float(...)` step can only fail with `ValueError`. -/
theorem runFloat_error (m : Option (List Char)) (h : Halt)
    (he : runFloat m = .error h) : h = Halt.valueError := by
  cases m with
  | none => simp [runFloat] at he
  | some tok =>
      simp only [runFloat] at he
      by_cases hv : pyFloatValid tok = true
      · rw [if_pos hv] at he; simp at he
      · rw [if_neg hv] at he
        injection he with h'
        exact h'.symm

/-- A failing extraction step can only fail with `ValueError`. -/
theorem extractMetricOf_error (fam : MetricPat) (out : String) (h : Halt)
    (he : extractMetricOf fam out = .error h) : h = Halt.valueError :=
  runFloat_error (patSearch fam out.toList) h he

/-- A failing guarded extraction step can only fail with `ValueError`. -/
theorem parseIfOut_error (fam : MetricPat) (out : String) (h : Halt)
    (he : parseIfOut fam out = .error h) : h = Halt.valueError := by
  unfold parseIfOut at he
  by_cases ho : out = ""
  · rw [if_pos ho] at he; simp at he
  · rw [if_neg ho] at he; exact extractMetricOf_error fam out h he

/-! ## Claim C4 -/

/-- C4: when no metric selector flag is set, or the `--all` flag is set,
the metric families executed are exactly those inferable from the
supplied inputs: frame iff pred and gt videos are given, NIQE iff a pred
video is given, FID iff pred and gt are given, LSE iff a
generated-videos directory is given. -/
theorem C4_input_resolution (a : Args)
    (h : a.all = true ∨
         (a.frame = false ∧ a.niqe = false ∧ a.fid = false ∧ a.lse = false)) :
    resolveRun a =
      { run_frame := a.pred_video.isSome && a.gt_video.isSome
        run_niqe := a.pred_video.isSome
        run_fid := a.pred_video.isSome && a.gt_video.isSome
        run_lse := a.gen_videos_dir.isSome } := by
  rcases h with h | ⟨h1, h2, h3, h4⟩
  · simp [resolveRun, h]
  · simp [resolveRun, h1, h2, h3, h4]

/-- Witness for C4 at a concrete run request (`--all` with only a pred
video: only NIQE is selected). -/
theorem C4_witness :
    resolveRun
      { all := true, pred_video := some "p.mp4", work_dir := "wd",
        syncnet_dir := "sn" } =
      { run_frame := false, run_niqe := true, run_fid := false,
        run_lse := false } :=
  C4_input_resolution
    { all := true, pred_video := some "p.mp4", work_dir := "wd",
      syncnet_dir := "sn" } (Or.inl rfl)

/-! ## Claim C7 -/

/-- C7: each frame-extraction invocation by the orchestrator deletes any
pre-existing output directory first, so two invocations in a row on the
same output directory leave exactly the frames of the second invocation,
with no leftovers from the first. -/
theorem C7_frame_extraction_clean (dir : String) (f1 f2 : List String)
    (fs : DirState) :
    extractFramesRun dir f2 (extractFramesRun dir f1 fs) dir = some f2 := by
  simp [extractFramesRun, extractToFS, rmtreeFS]

/-! ## Claim C10 -/

/-- C10: `query_llm` never raises (it is a total function of its oracle):
an unknown `api_choice` falls back to the `"Zhipu AI"` configuration, and
an exception from the underlying client call yields the fixed Chinese
fallback string instead of propagating. -/
theorem C10_query_llm_fallback (env : String → Option String)
    (call : LLMConfig → String → Except String String)
    (text api_choice : String) :
    (lookupConfig env api_choice = none →
      query_llm env call text api_choice = query_llm env call text "Zhipu AI") ∧
    (∀ e, call (match lookupConfig env api_choice with
                | some c => c
                | none => zhipuConfig env) text = .error e →
      query_llm env call text api_choice = llmFallbackReply) := by
  constructor
  · intro h
    have hz : lookupConfig env "Zhipu AI" = some (zhipuConfig env) := rfl
    unfold query_llm
    rw [h, hz]
  · intro e he
    unfold query_llm
    simp only []
    rw [he]

/-- Witness for C10: unknown provider name and a failing client call
produce the fallback reply. -/
theorem C10_witness :
    query_llm (fun _ => none) (fun _ _ => Except.error "boom") "hi" "Unknown" =
      llmFallbackReply :=
  (C10_query_llm_fallback (fun _ => none) (fun _ _ => Except.error "boom")
    "hi" "Unknown").2 "boom" rfl

/-! ## Claim C2 -/

/-- C2 (counterexample): extraction does *not* treat a matched but
malformed number group like a missing pattern: on stdout `"PSNR = ."`
the PSNR pattern matches with capture `"."`, and `float(".")` raises
`ValueError` instead of leaving the value absent. -/
theorem C2_counterexample :
    extractMetricOf MetricPat.psnr "PSNR = ." = .error Halt.valueError ∧
    (Except.error Halt.valueError : Except Halt (Option String)) ≠ .ok none :=
  ⟨rfl, fun h => Except.noConfusion h⟩

/-- C2 (amended): every metric value an extraction *stores* is a
well-formed float literal (never a partial or garbled parse); however, a
pattern match whose captured group is not a valid float literal is not
treated as absence — `float(...)` raises `ValueError`, which propagates
out of `main`. -/
theorem C2_stored_values_wellformed (fam : MetricPat) (out v : String)
    (h : extractMetricOf fam out = .ok (some v)) :
    pyFloatValid v.toList = true := by
  unfold extractMetricOf at h
  cases hm : patSearch fam out.toList with
  | none => rw [hm] at h; simp [runFloat] at h
  | some tok =>
      rw [hm] at h
      simp only [runFloat] at h
      by_cases hv : pyFloatValid tok = true
      · rw [if_pos hv] at h
        injection h with h'
        injection h' with h''
        rw [← h'']
        exact hv
      · rw [if_neg hv] at h
        exact absurd h (fun hc => Except.noConfusion hc)

/-- Witness for C2 at a concrete stdout. -/
theorem C2_witness : pyFloatValid "31.2".toList = true :=
  C2_stored_values_wellformed MetricPat.psnr "PSNR = 31.2" "31.2" rfl

/-! ## Claim C5 -/

/-- C5 (counterexample): the stdout `"FID (clean-fid) = 12.3456"`
contains the substring `"FID (clean-fid) = 12.345"`, yet the extracted
FID value is `12.3456`, not `12.345` (the greedy capture keeps consuming
number characters after the substring). -/
theorem C5_counterexample :
    hasSub "FID (clean-fid) = 12.345".toList
        "FID (clean-fid) = 12.3456".toList = true ∧
    extractMetricOf MetricPat.fid "FID (clean-fid) = 12.3456" =
      .ok (some "12.3456") ∧
    (some "12.3456" : Option String) ≠ some "12.345" :=
  ⟨rfl, rfl, by decide⟩

/-- C5 (amended): on stdout that is exactly
`"FID (clean-fid) = 12.345"` the extracted FID value is `12.345`; and on
any stdout with no `FID` substring the extracted value is `None` with no
exception raised. -/
theorem C5_fid_extraction :
    extractMetricOf MetricPat.fid "FID (clean-fid) = 12.345" =
      .ok (some "12.345") ∧
    ∀ s : String, hasSub "FID".toList s.toList = false →
      extractMetricOf MetricPat.fid s = .ok none := by
  constructor
  · rfl
  · intro s h
    show runFloat (searchFrom "FID".toList matchLazyEqNum s.toList) = .ok none
    rw [searchFrom_eq_none_of_hasSub_false "FID".toList matchLazyEqNum s.toList h]
    rfl

/-- Witness for C5 on a stdout with no `FID` substring. -/
theorem C5_witness : extractMetricOf MetricPat.fid "hello world" = .ok none :=
  C5_fid_extraction.2 "hello world" rfl

/-! ## Claim C9 -/

/-- C9: whenever the frame-metrics family runs without the `--lpips`
flag and produces its summary entry, that entry contains the key `LPIPS`
with value `None`, regardless of the subprocess stdout (the LPIPS
pattern is only searched when the flag is set). -/
theorem C9_lpips_none_without_flag (a : Args) (w : World) (tr : List Ev)
    (r : FrameRes) (hl : a.lpips = false)
    (h : frameStage a w = .ok (tr, r)) : r.LPIPS = none := by
  unfold frameStage at h
  rw [hl] at h
  split at h
  · split at h
    · simp at h
    · split at h
      · simp_all
      · split at h
        · simp_all
        · dsimp only [] at h
          split at h
          · split at h
            · simp at h
            · split at h
              · simp at h
              · simp only [Except.ok.injEq, Prod.mk.injEq] at h
                obtain ⟨htr, hrec⟩ := h
                subst hrec
                simp_all
          · simp at h
  · simp at h

/-- Witness for C9: a run of the frame family without `--lpips` whose
stdout even contains an LPIPS line still records `LPIPS = None`. -/
theorem C9_witness :
    FrameRes.LPIPS ⟨false, "alex", some "31.2", some "0.91", none⟩ = none :=
  C9_lpips_none_without_flag
    { frame := true, pred_video := some "p.mp4", gt_video := some "g.mp4",
      work_dir := "wd", syncnet_dir := "sn" }
    ⟨fun _ => (0, "PSNR = 31.2\nSSIM = 0.91\nLPIPS (alex) = 0.123"),
     fun _ => false, fun _ => none, fun s => s⟩
    [Ev.run (SubCmd.frameMetrics "p.mp4" "g.mp4" false "alex")]
    ⟨false, "alex", some "31.2", some "0.91", none⟩ rfl rfl

/-! ## Claim C3 -/

/-- C3 (counterexample): a run of only the NIQE family whose subprocess
exits with code 1 but still prints `"NIQE (pyiqa) = 5.0"` completes with
`niqe.ok == False` and `niqe.NIQE == 5.0`: the value is parsed from
stdout regardless of the exit code, so `NIQE is None` fails. -/
theorem C3_counterexample :
    (mainRun
      { niqe := true, pred_video := some "p.mp4", work_dir := "wd",
        syncnet_dir := "sn" }
      ⟨fun cmd => match cmd with
                  | SubCmd.niqeCmd _ => (1, "NIQE (pyiqa) = 5.0")
                  | _ => (0, ""),
       fun _ => false, fun _ => none, fun s => s⟩).2 =
      .ok ⟨none, some ⟨"wd/pred_frames", false, some "5.0"⟩, none, none⟩ ∧
    (some "5.0" : Option String) ≠ none :=
  ⟨rfl, fun h => Option.noConfusion h⟩

/-- C3 (amended): when the NIQE subprocess exits non-zero and its stdout
contains no NIQE pattern match, no exception propagates (the section
returns normally, so execution continues with the remaining metric
families) and the summary entry is `ok == False`, `NIQE == None`.  (If
the failed subprocess's stdout does match, the value is parsed and
stored anyway, and a malformed capture raises `ValueError`.) -/
theorem C3_niqe_failure_recovered (pfd : String) (w : World) (ret : Int)
    (out : String) (hp : w.proc (SubCmd.niqeCmd pfd) = (ret, out))
    (hr : ret ≠ 0) (hparse : parseIfOut MetricPat.niqe out = .ok none) :
    niqeStage pfd w = .ok ([Ev.run (SubCmd.niqeCmd pfd)], ⟨pfd, false, none⟩) := by
  unfold niqeStage
  dsimp only []
  rw [hp]
  dsimp only []
  simp only [hparse]
  simp [hr]

/-- Witness for C3 at a concrete failing world. -/
theorem C3_witness :
    niqeStage "d" ⟨fun _ => (1, ""), fun _ => false, fun _ => none, fun s => s⟩ =
      .ok ([Ev.run (SubCmd.niqeCmd "d")], ⟨"d", false, none⟩) :=
  C3_niqe_failure_recovered "d"
    ⟨fun _ => (1, ""), fun _ => false, fun _ => none, fun s => s⟩
    1 "" rfl (by decide) rfl

/-! ## Claim C8 -/

/-- C8 (counterexample): for the NIQE family a parse miss is
distinguishable from a subprocess failure: with the value absent in both
records, the `ok` flag is `True` after a parse miss (exit 0, no pattern)
and `False` after a failure (exit 3), so the records differ. -/
theorem C8_counterexample :
    niqeStage "d"
      ⟨fun _ => (0, "no pattern in this output"), fun _ => false,
       fun _ => none, fun s => s⟩ =
      .ok ([Ev.run (SubCmd.niqeCmd "d")], ⟨"d", true, none⟩) ∧
    niqeStage "d"
      ⟨fun _ => (3, "different output, still no pattern"), fun _ => false,
       fun _ => none, fun s => s⟩ =
      .ok ([Ev.run (SubCmd.niqeCmd "d")], ⟨"d", false, none⟩) ∧
    (⟨"d", true, none⟩ : NiqeRes) ≠ ⟨"d", false, none⟩ :=
  ⟨rfl, rfl, by decide⟩

/-- C8 (amended): a parse miss and a secondary subprocess failure both
leave the metric values absent; for the LSE family the two output
records (and recorded events) are fully indistinguishable, while for the
NIQE family all fields agree except the `ok` flag, which records exactly
`ret == 0`. -/
theorem C8_parse_miss_vs_failure :
    (∀ (pfd : String) (w : World) (ret : Int) (out : String),
        w.proc (SubCmd.niqeCmd pfd) = (ret, out) →
        parseIfOut MetricPat.niqe out = .ok none →
        niqeStage pfd w =
          .ok ([Ev.run (SubCmd.niqeCmd pfd)], ⟨pfd, decide (ret = 0), none⟩)) ∧
    (∀ (a : Args) (g : String) (w w' : World) (ret ret' : Int) (out out' : String),
        a.setup_lse = false → a.gen_videos_dir = some g → g ≠ "" →
        w.proc (SubCmd.lseCmd g a.lse_preset a.syncnet_dir a.tmp_dir) = (ret, out) →
        w'.proc (SubCmd.lseCmd g a.lse_preset a.syncnet_dir a.tmp_dir) = (ret', out') →
        ret = 0 → ret' ≠ 0 →
        parseIfOut MetricPat.lseC out = .ok none →
        parseIfOut MetricPat.lseD out = .ok none →
        parseIfOut MetricPat.lseC out' = .ok none →
        parseIfOut MetricPat.lseD out' = .ok none →
        w.readFile (joinPath a.syncnet_dir "all_scores.txt") = none →
        w'.readFile (joinPath a.syncnet_dir "all_scores.txt") = none →
        lseStage a w = lseStage a w') := by
  constructor
  · intro pfd w ret out hp hparse
    unfold niqeStage
    dsimp only []
    rw [hp]
    dsimp only []
    simp only [hparse]
  · intro a g w w' ret ret' out out' hsetup hgen hge hw hw' _ _ hc hd hc' hd' hf hf'
    have key : ∀ (w₀ : World) (r₀ : Int) (o₀ : String),
        w₀.proc (SubCmd.lseCmd g a.lse_preset a.syncnet_dir a.tmp_dir) = (r₀, o₀) →
        parseIfOut MetricPat.lseC o₀ = .ok none →
        parseIfOut MetricPat.lseD o₀ = .ok none →
        w₀.readFile (joinPath a.syncnet_dir "all_scores.txt") = none →
        lseStage a w₀ =
          .ok ([Ev.run (SubCmd.lseCmd g a.lse_preset a.syncnet_dir a.tmp_dir)],
               ⟨a.lse_preset, g, a.syncnet_dir, none, none⟩) := by
      intro w₀ r₀ o₀ hp₀ hc₀ hd₀ hf₀
      unfold lseStage
      rw [hgen]
      try dsimp only []
      rw [if_neg hge]
      rw [hsetup]
      simp only [Bool.false_eq_true, if_false, false_and]
      try dsimp only []
      rw [hp₀]
      try dsimp only []
      simp only [hc₀, hd₀, hf₀]
      simp
    rw [key w ret out hw hc hd hf, key w' ret' out' hw' hc' hd' hf']

/-- Witness for C8 at concrete parse-miss and failure worlds. -/
theorem C8_witness :
    niqeStage "d" ⟨fun _ => (0, "x"), fun _ => false, fun _ => none, fun s => s⟩ =
      .ok ([Ev.run (SubCmd.niqeCmd "d")], ⟨"d", decide ((0 : Int) = 0), none⟩) ∧
    lseStage
      { gen_videos_dir := some "g", lse := true, work_dir := "wd",
        syncnet_dir := "sn" }
      ⟨fun _ => (0, "outA"), fun _ => false, fun _ => none, fun s => s⟩ =
    lseStage
      { gen_videos_dir := some "g", lse := true, work_dir := "wd",
        syncnet_dir := "sn" }
      ⟨fun _ => (5, "outB"), fun _ => false, fun _ => none, fun s => s⟩ :=
  ⟨C8_parse_miss_vs_failure.1 "d"
     ⟨fun _ => (0, "x"), fun _ => false, fun _ => none, fun s => s⟩ 0 "x" rfl rfl,
   C8_parse_miss_vs_failure.2
     { gen_videos_dir := some "g", lse := true, work_dir := "wd",
       syncnet_dir := "sn" } "g"
     ⟨fun _ => (0, "outA"), fun _ => false, fun _ => none, fun s => s⟩
     ⟨fun _ => (5, "outB"), fun _ => false, fun _ => none, fun s => s⟩
     0 5 "outA" "outB" rfl rfl (by decide) rfl rfl rfl (by decide)
     rfl rfl rfl rfl rfl rfl⟩

/-! ## Claim C1 -/

/-- A failing NIQE section can only fail with `ValueError` (its
subprocess is `allow_fail=True`; only `float(...)` can abort it). -/
theorem niqeStage_error_valueError (pfd : String) (w : World) (tr : List Ev)
    (h : Halt) (he : niqeStage pfd w = .error (tr, h)) : h = Halt.valueError := by
  unfold niqeStage at he
  dsimp only [] at he
  cases hq : parseIfOut MetricPat.niqe (w.proc (SubCmd.niqeCmd pfd)).2 with
  | error e =>
      rw [hq] at he
      simp only [Except.error.injEq, Prod.mk.injEq] at he
      rw [← he.2]
      exact parseIfOut_error _ _ _ hq
  | ok v => rw [hq] at he; simp at he

/-- C1 (counterexample): with `--fid --pred-video p.mp4` and no
ground-truth video the process does exit non-zero, but only after the
predicted-video frame-extraction subprocess has been invoked — not
before any subprocess. -/
theorem C1_counterexample :
    (mainRun
      { fid := true, pred_video := some "p.mp4", work_dir := "wd",
        syncnet_dir := "sn" }
      ⟨fun _ => (0, ""), fun _ => false, fun _ => none, fun s => s⟩).1 =
      [Ev.mkdirs "wd", Ev.run (SubCmd.extract "p.mp4" "wd/pred_frames" none)] ∧
    (mainRun
      { fid := true, pred_video := some "p.mp4", work_dir := "wd",
        syncnet_dir := "sn" }
      ⟨fun _ => (0, ""), fun _ => false, fun _ => none, fun s => s⟩).2 =
      .error (Halt.sysExit 1) ∧
    ¬ (∀ i, Ev.run i ∉ (mainRun
      { fid := true, pred_video := some "p.mp4", work_dir := "wd",
        syncnet_dir := "sn" }
      ⟨fun _ => (0, ""), fun _ => false, fun _ => none, fun s => s⟩).1) := by
  refine ⟨rfl, rfl, fun hall =>
    hall (SubCmd.extract "p.mp4" "wd/pred_frames" none) ?_⟩
  show Ev.run (SubCmd.extract "p.mp4" "wd/pred_frames" none) ∈
    [Ev.mkdirs "wd", Ev.run (SubCmd.extract "p.mp4" "wd/pred_frames" none)]
  exact List.mem_cons_of_mem _ (List.mem_singleton.mpr rfl)

/-- C1 (amended): if `--fid` is explicitly passed (and not overridden by
`--all`) without a ground-truth video, the process always exits with a
non-zero code; the exit happens before any subprocess is invoked only
when no predicted video is given either — with a predicted video the
pred-frame extraction (and NIQE, if selected) subprocesses run before
the fatal exit. -/
theorem C1_fid_without_gt_fatal (a : Args) (w : World)
    (hf : a.fid = true) (hall : a.all = false) (hgt : a.gt_video = none) :
    runExitCode (mainRun a w).2 ≠ 0 ∧
    (a.pred_video = none → ∀ i, Ev.run i ∉ (mainRun a w).1) := by
  have hsel : resolveRun a = ⟨a.frame, a.niqe, true, a.lse⟩ := by
    simp [resolveRun, hall, hf]
  have hfs : frameStage a w = .error ([], .sysExit 1) := by
    unfold frameStage
    rw [hgt]
    cases a.pred_video <;> rfl
  have hframe : framePart a ⟨a.frame, a.niqe, true, a.lse⟩ w =
      (if a.frame = true then .error ([], .sysExit 1) else .ok ([], none)) := by
    unfold framePart optWrap
    by_cases hfr : a.frame = true
    · simp only [if_pos hfr, hfs]
    · simp only [if_neg hfr]
  have hfid : ∀ pfd, fidStage a pfd w = .error ([], .sysExit 1) := by
    intro pfd
    unfold fidStage
    rw [hgt]
  constructor
  · cases hfr : a.frame with
    | true =>
        have hframe1 : framePart a ⟨true, a.niqe, true, a.lse⟩ w =
            .error ([], .sysExit 1) := by
          have hx := hframe
          rw [hfr] at hx
          simpa using hx
        simp [mainRun, hsel, hframe1, hfr, runExitCode]
    | false =>
        have hframe0 : framePart a ⟨false, a.niqe, true, a.lse⟩ w =
            .ok ([], none) := by
          have hx := hframe
          rw [hfr] at hx
          simpa using hx
        cases hpv : a.pred_video with
        | none =>
            simp [mainRun, hsel, hframe0, hfr, niqeFidPart, niqeFidStage, optWrap, hpv,
              runExitCode]
        | some p =>
            by_cases hpe : p = ""
            · simp [mainRun, hsel, hframe0, hfr, niqeFidPart, niqeFidStage, optWrap, hpv,
                hpe, runExitCode]
            · by_cases hre :
                  (w.proc (SubCmd.extract p (joinPath a.work_dir "pred_frames")
                    a.fps)).1 = 0
              · cases hni : a.niqe with
                | false =>
                    rw [hni] at hframe0
                    simp [mainRun, hsel, hframe0, hfr, niqeFidPart, niqeFidStage, optWrap,
                      hpv, hpe, hre, hni, hfid, runExitCode]
                | true =>
                    rw [hni] at hframe0
                    cases hns : niqeStage (joinPath a.work_dir "pred_frames") w with
                    | error e =>
                        obtain ⟨tr0, h0⟩ := e
                        have h0v := niqeStage_error_valueError _ _ _ _ hns
                        subst h0v
                        simp [mainRun, hsel, hframe0, hfr, niqeFidPart,
                          niqeFidStage, optWrap, hpv, hpe, hre, hni, hns, runExitCode]
                    | ok v =>
                        obtain ⟨trN, rN⟩ := v
                        simp [mainRun, hsel, hframe0, hfr, niqeFidPart,
                          niqeFidStage, optWrap, hpv, hpe, hre, hni, hns, hfid, runExitCode]
              · simp [mainRun, hsel, hframe0, hfr, niqeFidPart, niqeFidStage, optWrap,
                  hpv, hpe, hre, runExitCode]
  · intro hpv i
    cases hfr : a.frame with
    | true =>
        have hframe1 : framePart a ⟨true, a.niqe, true, a.lse⟩ w =
            .error ([], .sysExit 1) := by
          have hx := hframe
          rw [hfr] at hx
          simpa using hx
        simp [mainRun, hsel, hframe1, hfr]
    | false =>
        have hframe0 : framePart a ⟨false, a.niqe, true, a.lse⟩ w =
            .ok ([], none) := by
          have hx := hframe
          rw [hfr] at hx
          simpa using hx
        simp [mainRun, hsel, hframe0, hfr, niqeFidPart, niqeFidStage, optWrap, hpv]

/-- Witness for C1 at a concrete run request with neither video. -/
theorem C1_witness :
    runExitCode (mainRun { fid := true, work_dir := "wd", syncnet_dir := "sn" }
      ⟨fun _ => (0, ""), fun _ => false, fun _ => none, fun s => s⟩).2 ≠ 0 ∧
    ((none : Option String) = none → ∀ i, Ev.run i ∉
      (mainRun { fid := true, work_dir := "wd", syncnet_dir := "sn" }
        ⟨fun _ => (0, ""), fun _ => false, fun _ => none, fun s => s⟩).1) :=
  C1_fid_without_gt_fatal
    { fid := true, work_dir := "wd", syncnet_dir := "sn" }
    ⟨fun _ => (0, ""), fun _ => false, fun _ => none, fun s => s⟩
    rfl rfl rfl

/-! ## Claim C6 -/

/-- A guarded section contributes a summary entry iff its flag is set. -/
theorem optWrap_shape {A : Type} (b : Bool)
    (m : Except (List Ev × Halt) (List Ev × A)) (trX : List Ev) (x : Option A)
    (h : optWrap b m = .ok (trX, x)) : x.isSome = b := by
  unfold optWrap at h
  cases b with
  | false => simp at h; rw [← h.2]; rfl
  | true =>
      simp only [if_true] at h
      cases m with
      | error e => simp at h
      | ok v =>
          obtain ⟨tr0, r0⟩ := v
          simp only [Except.ok.injEq, Prod.mk.injEq] at h
          rw [← h.2]
          rfl

/-- The frame section contributes a summary entry iff `run_frame`. -/
theorem framePart_shape (a : Args) (sel : RunSel) (w : World) (tr : List Ev)
    (fr : Option FrameRes) (h : framePart a sel w = .ok (tr, fr)) :
    fr.isSome = sel.run_frame :=
  optWrap_shape sel.run_frame (frameStage a w) tr fr h

/-- The LSE section contributes a summary entry iff `run_lse`. -/
theorem lsePart_shape (a : Args) (sel : RunSel) (w : World) (tr : List Ev)
    (ls : Option LseRes) (h : lsePart a sel w = .ok (tr, ls)) :
    ls.isSome = sel.run_lse :=
  optWrap_shape sel.run_lse (lseStage a w) tr ls h

/-- The NIQE/FID sections contribute summary entries iff their flags. -/
theorem niqeFidPart_shape (a : Args) (sel : RunSel) (w : World) (tr : List Ev)
    (nq : Option NiqeRes) (fd : Option FidRes)
    (h : niqeFidPart a sel w = .ok (tr, (nq, fd))) :
    nq.isSome = sel.run_niqe ∧ fd.isSome = sel.run_fid := by
  unfold niqeFidPart at h
  by_cases hb : (sel.run_niqe || sel.run_fid) = true
  · rw [if_pos hb] at h
    unfold niqeFidStage at h
    split at h
    · simp at h
    · split at h
      · simp at h
      · dsimp only [] at h
        split at h
        · split at h
          · simp at h
          · split at h
            · simp at h
            · rename_i x1 trN nq1 heq1 x2 trF fd1 heq2
              simp only [Except.ok.injEq, Prod.mk.injEq] at h
              obtain ⟨-, hnq, hfd⟩ := h
              rw [← hnq, ← hfd]
              exact ⟨optWrap_shape _ _ _ _ heq1, optWrap_shape _ _ _ _ heq2⟩
        · simp at h
  · rw [if_neg hb] at h
    simp only [Except.ok.injEq, Prod.mk.injEq] at h
    obtain ⟨-, hnq, hfd⟩ := h
    rw [← hnq, ← hfd]
    have hb2 : sel.run_niqe = false ∧ sel.run_fid = false := by
      revert hb
      cases sel.run_niqe <;> cases sel.run_fid <;> simp
    simp [hb2.1, hb2.2]

/-- Top-level JSON keys of a summary record match the selected families. -/
theorem resultsKeys_of_shape (fr : Option FrameRes) (nq : Option NiqeRes)
    (fd : Option FidRes) (ls : Option LseRes) (sel : RunSel)
    (h1 : fr.isSome = sel.run_frame) (h2 : nq.isSome = sel.run_niqe)
    (h3 : fd.isSome = sel.run_fid) (h4 : ls.isSome = sel.run_lse) :
    jsonTopKeys (resultsToJson ⟨fr, nq, fd, ls⟩) = familiesOf sel := by
  unfold familiesOf
  rw [← h1, ← h2, ← h3, ← h4]
  cases fr <;> cases nq <;> cases fd <;> cases ls <;>
    simp [resultsToJson, jsonTopKeys]

/-- C6: for every run that completes with a truthy `--json-out`, the
events include creating the parent directory
(`os.path.dirname(os.path.abspath(json_out)) or "."`) and then writing
the summary record as JSON at the given path, and the written document's
top-level keys are exactly the subset of `frame`/`niqe`/`fid`/`lse`
attempted by the resolved run. -/
theorem C6_json_summary (a : Args) (w : World) (tr : List Ev) (res : Results)
    (p : String) (hm : mainRun a w = (tr, .ok res)) (hj : a.json_out = some p)
    (hp : p ≠ "") :
    Ev.writeJson p res ∈ tr ∧ Ev.mkdirs (jsonOutDir w p) ∈ tr ∧
    jsonTopKeys (resultsToJson res) = familiesOf (resolveRun a) := by
  unfold mainRun at hm
  dsimp only [] at hm
  cases hfp : framePart a (resolveRun a) w with
  | error e =>
      obtain ⟨tr', h'⟩ := e
      rw [hfp] at hm
      simp at hm
  | ok v =>
      obtain ⟨tr1, fr⟩ := v
      rw [hfp] at hm
      cases hnp : niqeFidPart a (resolveRun a) w with
      | error e =>
          obtain ⟨tr', h'⟩ := e
          rw [hnp] at hm
          simp at hm
      | ok v2 =>
          obtain ⟨tr2, nqfd⟩ := v2
          obtain ⟨nq, fd⟩ := nqfd
          rw [hnp] at hm
          cases hlp : lsePart a (resolveRun a) w with
          | error e =>
              obtain ⟨tr', h'⟩ := e
              rw [hlp] at hm
              simp at hm
          | ok v3 =>
              obtain ⟨tr3, ls⟩ := v3
              rw [hlp] at hm
              simp only [Prod.mk.injEq, Except.ok.injEq] at hm
              obtain ⟨htr, hres⟩ := hm
              subst hres
              refine ⟨?_, ?_, ?_⟩
              · rw [← htr]
                simp [jsonStage, hj, hp]
              · rw [← htr]
                simp [jsonStage, hj, hp]
              · exact resultsKeys_of_shape fr nq fd ls _
                  (framePart_shape _ _ _ _ _ hfp)
                  (niqeFidPart_shape _ _ _ _ _ _ hnp).1
                  (niqeFidPart_shape _ _ _ _ _ _ hnp).2
                  (lsePart_shape _ _ _ _ _ hlp)

/-- Witness for C6 at a concrete completed run (nothing selected, so the
summary is empty and the written JSON has no top-level keys). -/
theorem C6_witness :
    Ev.writeJson "out/res.json" ⟨none, none, none, none⟩ ∈
      [Ev.mkdirs "wd", Ev.mkdirs "/cwd/out",
       Ev.writeJson "out/res.json" ⟨none, none, none, none⟩] ∧
    Ev.mkdirs (jsonOutDir
      ⟨fun _ => (0, ""), fun _ => false, fun _ => none,
       fun s => String.append "/cwd/" s⟩ "out/res.json") ∈
      [Ev.mkdirs "wd", Ev.mkdirs "/cwd/out",
       Ev.writeJson "out/res.json" ⟨none, none, none, none⟩] ∧
    jsonTopKeys (resultsToJson ⟨none, none, none, none⟩) =
      familiesOf (resolveRun
        { json_out := some "out/res.json", work_dir := "wd",
          syncnet_dir := "sn" }) :=
  C6_json_summary
    { json_out := some "out/res.json", work_dir := "wd", syncnet_dir := "sn" }
    ⟨fun _ => (0, ""), fun _ => false, fun _ => none,
     fun s => String.append "/cwd/" s⟩
    [Ev.mkdirs "wd", Ev.mkdirs "/cwd/out",
     Ev.writeJson "out/res.json" ⟨none, none, none, none⟩]
    ⟨none, none, none, none⟩ "out/res.json" rfl rfl (by decide)
